import Mathlib

/-!
SW3DMap — verification of the specified core

Shallow embedding of the SW3DMap repository's core logic and proofs of the
specified properties.

* `Parser` — `parser/parse-planets.js`: `parseGridCoord`, the per-line body of
  `parseCSV`, and the color tables.
* `Viewer` — `src/main.js`, first `GalaxyViewer` class (lines 244–1607):
  the selection state machine (`focusOnPlanet`, `clearPlanetFocus`), the
  restore animation (`restorePlanetsToOriginalPositions`), the repulsion step
  (`applyRepulsionForces`), and the grid projection (`gridTo3D`).

Numeric values carried by the JavaScript code as floating-point numbers are
modelled over `ℚ` where no square root is involved and over `ℝ` where
`Math.sqrt` / `Math.exp` occur.
-/

namespace Parser

/-- Characters removed by JavaScript `String.prototype.trim` (the ones that
can occur in this catalog's data). -/
def isJsSpace (c : Char) : Bool :=
  c == ' ' || c == '\t' || c == '\n' || c == '\r' || c == '\x0b' || c == '\x0c'

/-- JS `s.trim()` on a list of characters. -/
def jsTrim (l : List Char) : List Char :=
  ((l.dropWhile isJsSpace).reverse.dropWhile isJsSpace).reverse

/-- Helper for `stripCRLF`: after a `"\r\n"` match, the regex `.*` consumes
greedily up to (not including) the next newline, which survives. -/
def dropToNewline : List Char → List Char
  | [] => []
  | '\n' :: rest => '\n' :: rest
  | _ :: rest => dropToNewline rest

/-- JS `s.replace(/\r\n.*\/, '')` (first match only; `.` does not cross a
newline): drops the first `"\r\n"` and everything up to the next newline. -/
def stripCRLF : List Char → List Char
  | [] => []
  | '\r' :: '\n' :: rest => dropToNewline rest
  | c :: rest => c :: stripCRLF rest

/-- JS `parseInt(digits, 10)` on a digit-only string. -/
def digitsToNat (l : List Char) : Nat :=
  l.foldl (fun n c => n * 10 + (c.toNat - 48)) 0

/-- The `{x, y}` record returned by `parseGridCoord`. -/
structure Coord where
  x : Nat
  y : Nat
  deriving DecidableEq, Repr

/-- The regex match `^([A-Z])-(\d+)$` of `parseGridCoord`
(parse-planets.js lines 70–78): a single uppercase letter, a dash, then one
or more digits; `x = letter.charCodeAt(0) - 'A'.charCodeAt(0) + 1`. -/
def matchGrid (l : List Char) : Option Coord :=
  match l with
  | c :: '-' :: rest =>
    if c.isUpper && !rest.isEmpty && rest.all (·.isDigit) then
      some ⟨c.toNat - 'A'.toNat + 1, digitsToNat rest⟩
    else none
  | _ => none

/-- `parseGridCoord` (parse-planets.js lines 64–81). The falsy check
`!gridStr` rejects the empty string; then
`gridStr.trim().replace(/\r\n.*\/, '')` is matched against
`^([A-Z])-(\d+)$`. -/
def parseGridCoord (gridStr : List Char) : Option Coord :=
  if gridStr.isEmpty then none
  else matchGrid (stripCRLF (jsTrim gridStr))

/-- `parseGridCoord` applied to a Lean string literal. -/
def parseGridCoordS (s : String) : Option Coord :=
  parseGridCoord s.data

/-- `BIOME_COLORS` (parse-planets.js lines 22–29). -/
def biomeColors : List (List Char × List Char) :=
  [("volcanic".data, "#ff4500".data),
   ("coruscant".data, "#808080".data),
   ("desert".data, "#d4a574".data),
   ("ice".data, "#e0f6ff".data),
   ("oceanic".data, "#1a4d7a".data),
   ("earth".data, "#3d5c1d".data)]

/-- `REGION_COLORS` (parse-planets.js lines 34–46), in insertion order. -/
def regionColors : List (List Char × List Char) :=
  [("Deep Core".data, "#ffffff".data),
   ("Core Worlds".data, "#fcd788".data),
   ("Inner Rim".data, "#f6b16b".data),
   ("Mid Rim".data, "#b939af".data),
   ("Expansion Region".data, "#85ddf1".data),
   ("Outer Rim".data, "#00ffd9".data),
   ("Outer Rim Territories".data, "#00ffd9".data),
   ("Unknown Regions".data, "#9a9a9a".data),
   ("Wild Space".data, "#41ff00".data),
   ("Colonies".data, "#c687f8".data),
   ("Hutt Space".data, "#ff0000".data)]

/-- `getBiomeColor` (parse-planets.js lines 105–107). -/
def getBiomeColor (biome : List Char) : List Char :=
  match biomeColors.find? (fun e => e.1 == biome) with
  | some e => e.2
  | none => "#FFE81F".data

/-- Does the first list start with the second one? (Helper for the JS
substring test `includes`.) -/
def startsWithSub : List Char → List Char → Bool
  | _, [] => true
  | [], _ :: _ => false
  | a :: as, b :: bs => a == b && startsWithSub as bs

/-- JS `s.includes(sub)`: substring containment. -/
def containsSub : List Char → List Char → Bool
  | l, sub =>
    if startsWithSub l sub then true
    else match l with
      | [] => false
      | _ :: rest => containsSub rest sub

/-- `getRegionColor` (parse-planets.js lines 112–122): first region whose
lower-cased name is a substring of the lower-cased region text. -/
def getRegionColor (regionText : List Char) : List Char :=
  if regionText.isEmpty then "#FFE81F".data
  else
    match regionColors.find?
        (fun e => containsSub (regionText.map Char.toLower) (e.1.map Char.toLower)) with
    | some e => e.2
    | none => "#FFE81F".data

/-- A planet record pushed by `parseCSV` (parse-planets.js lines 153–163). -/
structure Planet where
  name : List Char
  sector : List Char
  region : List Char
  grid : List Char
  x : Nat
  y : Nat
  biome : List Char
  color : List Char
  regionColor : List Char
  deriving DecidableEq, Repr

/-- An error record pushed by `parseCSV` (parse-planets.js lines 166–171). -/
structure CsvError where
  line : Nat
  system : List Char
  grid : List Char
  reason : List Char
  deriving DecidableEq, Repr

/-- JS `String.prototype.split(sep)` on a list of characters:
`"" → [""]`, separators at the ends produce empty fields. -/
def splitC (sep : Char) : List Char → List (List Char)
  | [] => [[]]
  | c :: rest =>
    let r := splitC sep rest
    if c = sep then [] :: r else (c :: r.headI) :: r.tail

/-- `line.trim().split(';').map(p => p.trim())`
(parse-planets.js lines 135 and 138). -/
def lineParts (rawLine : List Char) : List (List Char) :=
  (splitC ';' (jsTrim rawLine)).map jsTrim

/-- The body of `parseCSV`'s per-line loop (parse-planets.js lines 134–175)
for the line at position `i` of the post-header slice. `determineBiome`
stands for the async `determinePlanetBiome`, whose result depends on the
filesystem and on `Math.random()`; it is passed in as a function of the
system name. Returns `none` when the line contributes nothing, otherwise
the planet record or the error record it appends. -/
def processLine (determineBiome : List Char → List Char) (i : Nat)
    (rawLine : List Char) : Option (Sum Planet CsvError) :=
  let line := jsTrim rawLine
  if line.isEmpty || line == ";;;;".data then none
  else
    let parts := lineParts rawLine
    if 4 ≤ parts.length then
      let system := parts.getD 0 []
      let sector := parts.getD 1 []
      let region := parts.getD 2 []
      let grid := parts.getD 3 []
      if system.isEmpty then none
      else
        match parseGridCoord grid with
        | some coords =>
          let biome := determineBiome system
          some (Sum.inl
            { name := system
              sector := if sector.isEmpty then "Unknown".data else sector
              region := if region.isEmpty then "Unknown".data else region
              grid := jsTrim grid
              x := coords.x
              y := coords.y
              biome := biome
              color := getBiomeColor biome
              regionColor := getRegionColor region })
        | none =>
          if !grid.isEmpty && !(jsTrim grid).isEmpty then
            some (Sum.inr
              { line := i + 2
                system := system
                grid := jsTrim grid
                reason := "Invalid grid format".data })
          else none
    else none

/-- `parseCSV` (parse-planets.js lines 127–178): split the content on
newlines, drop the header, process each line, and collect the planet
records and the error records in order. -/
def parseCSV (determineBiome : List Char → List Char) (content : List Char) :
    List Planet × List CsvError :=
  let lines := (splitC '\n' content).drop 1
  let results := lines.enum.filterMap (fun e => processLine determineBiome e.1 e.2)
  (results.filterMap (fun r => match r with | Sum.inl p => some p | Sum.inr _ => none),
   results.filterMap (fun r => match r with | Sum.inr err => some err | Sum.inl _ => none))

end Parser

namespace Viewer

/-- A 3D vector over `ℚ` (`THREE.Vector3` values that involve no square
root or exponential). -/
abbrev Vec3 := ℚ × ℚ × ℚ

/-- The zero vector (`new THREE.Vector3()`). -/
def zeroV : Vec3 := (0, 0, 0)

/-- `Map.prototype.set` on an association list with unique keys: replace
the entry when the key is present, append otherwise. -/
def mapSet {α : Type} (m : List (Nat × α)) (k : Nat) (v : α) : List (Nat × α) :=
  if m.any (fun e => e.1 == k) then
    m.map (fun e => if e.1 == k then (k, v) else e)
  else m ++ [(k, v)]

/-- `Map.prototype.get`, as an `Option`. -/
def mapGet {α : Type} (m : List (Nat × α)) (k : Nat) : Option α :=
  (m.find? (fun e => e.1 == k)).map (·.2)

/-- One `planetData` entry of the first `GalaxyViewer` class
(main.js lines 854–867), restricted to the fields the selection state
machine reads or writes. -/
structure PlanetSt where
  index : Nat
  position : Vec3
  originalPosition : Vec3
  hovered : Bool
  focused : Bool
  visible : Bool
  deriving DecidableEq, Repr

/-- The viewer state read or written by the synchronous part of
`focusOnPlanet` and by `clearPlanetFocus`. `restoreActive` records that a
`restorePlanetsToOriginalPositions` animation has been started. -/
structure ViewerState where
  selectedPlanetIndex : Option Nat
  planetData : List PlanetSt
  planetVelocities : List (Nat × Vec3)
  controlsMinDistance : ℚ
  instancedMeshVisible : Bool
  regionalCloudsVisible : Bool
  restoreActive : Bool
  deriving DecidableEq, Repr

/-- `CONFIG.PLANET_SIZE` (main.js line 14). -/
def planetSize : ℚ := 0.5

/-- `CONFIG.SPHERE_RADIUS` (main.js line 13), as a rational. -/
def sphereRadiusQ : ℚ := 200

/-- The `planet.focused = true` write of main.js line 1285, applied to the
planet found by `p.index === globalPlanetIndex`. -/
def setFocused (i : Nat) (p : PlanetSt) : PlanetSt :=
  if p.index == i then { p with focused := true } else p

/-- The `forEach` of main.js lines 1289–1293: every planet other than the
selected one gets a fresh zero velocity vector. -/
def zeroOtherVel (i : Nat) (m : List (Nat × Vec3)) (p : PlanetSt) :
    List (Nat × Vec3) :=
  if p.index == i then m else mapSet m p.index zeroV

/-- `focusOnPlanet(globalPlanetIndex)` (main.js lines 1271–1303), the
synchronous part up to the HD-mesh handling: trigger a restore when
switching away from a different selection (lines 1272–1274), adopt the new
index (line 1276) — this happens before the planet lookup of lines
1278–1283 — then mark the target focused, lower the camera min distance,
zero the other planets' velocities, and hide the instanced mesh
(if the target is a visible instanced planet) and the regional clouds. -/
def select (i : Nat) (s : ViewerState) : ViewerState :=
  let s :=
    if s.selectedPlanetIndex ≠ none ∧ s.selectedPlanetIndex ≠ some i then
      { s with restoreActive := true }
    else s
  let s := { s with selectedPlanetIndex := some i }
  match s.planetData.find? (fun p => p.index == i) with
  | none => s
  | some planet =>
    let s := { s with planetData := s.planetData.map (setFocused i) }
    let s := { s with controlsMinDistance := planetSize * 2 }
    let s := { s with planetVelocities :=
      s.planetData.foldl (zeroOtherVel i) s.planetVelocities }
    let s := if planet.visible then { s with instancedMeshVisible := false } else s
    { s with regionalCloudsVisible := false }

/-- `clearPlanetFocus()` (main.js lines 1428–1486), the state part: unmark
the focused planet, clear the selection, restore the camera min distance,
start a restore animation, zero every velocity, and show the instanced
mesh and the regional clouds again. -/
def clearFocus (s : ViewerState) : ViewerState :=
  match s.selectedPlanetIndex with
  | none => s
  | some k =>
    let s : ViewerState :=
      match s.planetData.find? (fun p => p.index == k) with
      | some _ =>
        let pd := s.planetData.map
          (fun p => if p.index == k then { p with focused := false } else p)
        { s with planetData := pd }
      | none => s
    let s := { s with selectedPlanetIndex := none }
    let s := { s with controlsMinDistance := sphereRadiusQ * 0.5 }
    let s := { s with restoreActive := true }
    let vs := s.planetVelocities.map (fun e => (e.1, zeroV))
    let s := { s with planetVelocities := vs }
    { s with instancedMeshVisible := true, regionalCloudsVisible := true }

/-- The viewer state right after load: no selection, no focused planet,
zero velocities, everything visible. -/
def initialState (planets : List PlanetSt) : ViewerState :=
  { selectedPlanetIndex := none
    planetData := planets
    planetVelocities := planets.map (fun p => (p.index, zeroV))
    controlsMinDistance := sphereRadiusQ * 0.5
    instancedMeshVisible := true
    regionalCloudsVisible := true
    restoreActive := false }

/-- A visible, unfocused planet at the origin with the given index. -/
def demoPlanet (i : Nat) : PlanetSt :=
  { index := i, position := (0, 0, 0), originalPosition := (0, 0, 0),
    hovered := false, focused := false, visible := true }

/-- A freshly loaded two-planet viewer. -/
def twoPlanetState : ViewerState :=
  initialState [demoPlanet 0, demoPlanet 1]


/-- The `TEXTURE_MAPS` biome keys (main.js lines 25–87): the generic biomes
plus the per-planet specific ones. -/
def textureMapKeys : List String := ["volcanic", "oceanic", "coruscant", "taris"]

/-- The biomes flagged `alwaysVisible: true` in `PLANET_SPECIFIC_TEXTURES`
(main.js lines 46–69). -/
def alwaysVisibleKeys : List String := ["coruscant", "taris"]

/-- The fields of the viewer that the HD-mesh handling of `focusOnPlanet`
reads or writes across its `await` suspension point. A loaded mesh is
identified by the biome key it was created for. -/
structure HdState where
  selectedPlanetIndex : Option Nat
  focusedHdMesh : Option String
  focusedHdMeshKey : Option String
  alwaysVisibleMeshes : List String
  deriving DecidableEq, Repr

/-- `focusOnPlanet` (main.js lines 1271–1339) restricted to the fields of
`HdState`: the part executed synchronously before the
`await createHDPlanetMesh(...)` suspension point, for a target planet
(given by the index-to-biome list `planets`) whose biome key is in
`TEXTURE_MAPS` but not cached in `alwaysVisibleMeshes` (a cache miss).
Lines 1308–1328 drop the previously focused HD mesh unless its key is
always-visible; note they null `focusedHdMesh` but not
`focusedHdMeshKey`. -/
def selectHdPre (planets : List (Nat × String)) (i : Nat) (s : HdState) : HdState :=
  let s := { s with selectedPlanetIndex := some i }
  match planets.find? (fun e => e.1 == i) with
  | none => s
  | some _ =>
    match s.focusedHdMesh with
    | some _ =>
      let keep := match s.focusedHdMeshKey with
        | some oldKey => alwaysVisibleKeys.contains oldKey
        | none => false
      if keep then s else { s with focusedHdMesh := none }
    | none => s

/-- The continuation of `focusOnPlanet` (main.js lines 1339–1361) that runs
when the awaited `createHDPlanetMesh` for `biome` resolves successfully:
cache the mesh when its key is always-visible, then install it as
`focusedHdMesh` / `focusedHdMeshKey`. The code performs no check that the
selection that started the load is still the current one. -/
def selectHdPost (biome : String) (s : HdState) : HdState :=
  let s :=
    if alwaysVisibleKeys.contains biome then
      { s with alwaysVisibleMeshes := biome :: s.alwaysVisibleMeshes }
    else s
  { s with focusedHdMesh := some biome, focusedHdMeshKey := some biome }

/-- Two planets with distinct generic biomes. -/
def hdPlanets : List (Nat × String) := [(0, "volcanic"), (1, "oceanic")]

/-- HD-mesh state at load: nothing selected, nothing loaded or cached. -/
def hdInit : HdState :=
  { selectedPlanetIndex := none, focusedHdMesh := none,
    focusedHdMeshKey := none, alwaysVisibleMeshes := [] }

/-- The stale-load scenario of the spec: `select(0)` runs to its `await`
(cache miss for biome "volcanic"), then `select(1)` runs to its own
`await`, then planet 0's load resolves first. -/
def staleScenario : HdState :=
  selectHdPost "volcanic" (selectHdPre hdPlanets 1 (selectHdPre hdPlanets 0 hdInit))

/-- A `planetData` entry as `restorePlanetsToOriginalPositions` uses it. -/
structure RPlanet where
  index : Nat
  position : Vec3
  originalPosition : Vec3
  deriving DecidableEq, Repr

/-- `THREE.Vector3.lerpVectors(a, b, t) = a + (b - a) * t`. -/
def lerpV (a b : Vec3) (t : ℚ) : Vec3 :=
  (a.1 + (b.1 - a.1) * t, a.2.1 + (b.2.1 - a.2.1) * t, a.2.2 + (b.2.2 - a.2.2) * t)

/-- `THREE.Vector3.multiplyScalar`. -/
def smulV (c : ℚ) (v : Vec3) : Vec3 :=
  (c * v.1, c * v.2.1, c * v.2.2)

/-- `startPositions.get(data.index)` for the snapshot `start` taken when
the restore began (main.js lines 1101–1104 and 1113). -/
def startPosOf (start : List RPlanet) (k : Nat) : Vec3 :=
  match start.find? (fun p => p.index == k) with
  | some p => p.position
  | none => zeroV

/-- `velocity.multiplyScalar(c)` applied to the velocity-map entry of key
`k` (main.js lines 1122–1125): entries with other keys, and a missing key,
are untouched. -/
def scaleVel (c : ℚ) (k : Nat) (vs : List (Nat × Vec3)) : List (Nat × Vec3) :=
  vs.map (fun e => if e.1 == k then (e.1, smulV c e.2) else e)

/-- One `animate` frame of `restorePlanetsToOriginalPositions`
(main.js lines 1106–1128) at elapsed time `t`:
`progress = min(t/duration, 1)`, `eased = 1 - (1-progress)^3`, every
position is re-interpolated from its restore-start snapshot toward
`originalPosition` by `eased`, and every planet's velocity entry is scaled
by `1 - progress`. -/
def restoreFrame (d : ℚ) (start : List RPlanet) (t : ℚ)
    (ps : List RPlanet) (vs : List (Nat × Vec3)) :
    List RPlanet × List (Nat × Vec3) :=
  let progress := min (t / d) 1
  let eased := 1 - (1 - progress) ^ 3
  (ps.map (fun p =>
     { p with position := lerpV (startPosOf start p.index) p.originalPosition eased }),
   ps.foldl (fun acc p => scaleVel (1 - progress) p.index acc) vs)

/-- The `requestAnimationFrame` recursion of the restore animation
(main.js lines 1130–1132): frames run at the given elapsed times, and no
further frame is scheduled once progress reaches 1. -/
def runRestoreAux (d : ℚ) (start : List RPlanet) :
    List ℚ → List RPlanet → List (Nat × Vec3) → List RPlanet × List (Nat × Vec3)
  | [], ps, vs => (ps, vs)
  | t :: ts, ps, vs =>
    let out := restoreFrame d start t ps vs
    if min (t / d) 1 < 1 then runRestoreAux d start ts out.1 out.2 else out

/-- `restorePlanetsToOriginalPositions(d)` followed by animation frames at
the elapsed times `times`: the start snapshot is the position list at the
call (main.js lines 1100–1136). -/
def runRestore (d : ℚ) (times : List ℚ) (ps : List RPlanet)
    (vs : List (Nat × Vec3)) : List RPlanet × List (Nat × Vec3) :=
  runRestoreAux d ps times ps vs

/-- A single off-origin planet used to instantiate the restore theorem. -/
def demoRPlanet : RPlanet :=
  { index := 0, position := (3, 4, 5), originalPosition := (1, 1, 1) }

/-- A 3D vector over `ℝ`, for the code paths that use `Math.sqrt` and
`Math.exp`. -/
abbrev Vec3R := ℝ × ℝ × ℝ

/-- The zero vector over `ℝ`. -/
def zeroR : Vec3R := (0, 0, 0)

noncomputable section RealGeometry

/-- `CONFIG.SPHERE_RADIUS` (main.js line 13) as a real. -/
def sphereRadiusR : ℝ := 200

/-- `CONFIG.GRID_SIZE` (main.js line 12) as a real. -/
def gridSizeR : ℝ := 21

/-- `THREE.Vector3.length()`: `Math.sqrt(x*x + y*y + z*z)`. -/
def norm3 (p : Vec3R) : ℝ :=
  Real.sqrt (p.1 * p.1 + p.2.1 * p.2.1 + p.2.2 * p.2.2)

/-- Componentwise difference (`Vector3.sub`). -/
def sub3 (a b : Vec3R) : Vec3R :=
  (a.1 - b.1, a.2.1 - b.2.1, a.2.2 - b.2.2)

/-- Componentwise sum (`Vector3.add`). -/
def add3 (a b : Vec3R) : Vec3R :=
  (a.1 + b.1, a.2.1 + b.2.1, a.2.2 + b.2.2)

/-- Scalar multiple (`Vector3.multiplyScalar`). -/
def smul3 (c : ℝ) (v : Vec3R) : Vec3R :=
  (c * v.1, c * v.2.1, c * v.2.2)

/-- `Vector3.distanceTo`. -/
def dist3 (a b : Vec3R) : ℝ := norm3 (sub3 a b)

/-- `gridTo3D` (main.js lines 516–540) before the clamp. The four
`Math.random()` draws are passed explicitly: `r1`, `r2` feed the X/Y
jitter, `r3` the scale factor, `r4` the z factor; each lies in `[0,1]` at
run time, though nothing below depends on that. -/
def gridTo3Dunclamped (gridX gridY depthFactor r1 r2 r3 r4 : ℝ) : Vec3R :=
  let centerGrid : ℝ := 11
  let scale := sphereRadiusR / (gridSizeR / 2)
  let jitter : ℝ := 0.5
  let scaleRandomFactor := 1 + (r3 * 0.2 - 0.1)
  let jitteredX := gridX - centerGrid + (r1 * 2 - 1) * jitter
  let jitteredY := gridY - centerGrid + (r2 * 2 - 1) * jitter
  let x := jitteredX * scale * scaleRandomFactor
  let y := jitteredY * scale * scaleRandomFactor
  let radialDistance := Real.sqrt (x * x + y * y)
  let zFlattenFactor : ℝ := 2
  let maxRadiusXY := sphereRadiusR
  let density := Real.exp (-radialDistance / (maxRadiusXY / 2.5))
  let randomZFactor := 1 + r4 * 0.5
  let z := (depthFactor - 0.5) * maxRadiusXY * 2 * zFlattenFactor * density *
    randomZFactor
  (x, y, z)

/-- `gridTo3D` (main.js lines 516–550): the unclamped point followed by the
clamp-to-sphere of lines 541–547, which rescales all three coordinates by
`SPHERE_RADIUS / maxRadius3D` when the 3D radius exceeds the sphere. -/
def gridTo3D (gridX gridY depthFactor r1 r2 r3 r4 : ℝ) : Vec3R :=
  let p := gridTo3Dunclamped gridX gridY depthFactor r1 r2 r3 r4
  let maxRadius3D := norm3 p
  if maxRadius3D > sphereRadiusR then
    let factor := sphereRadiusR / maxRadius3D
    (p.1 * factor, p.2.1 * factor, p.2.2 * factor)
  else p

/-- `REPULSION_CONFIG.radius` (main.js line 264). -/
def repulsionRadius : ℝ := 40

/-- `REPULSION_CONFIG.strength` (main.js line 265). -/
def repulsionStrength : ℝ := 0.8

/-- The body of the `forEach` in `applyRepulsionForces`
(main.js lines 1077–1097) for the non-selected planet at loop index `idx`
with position `pos`: when `0 < distance < radius`, normalize the offset
from the selected position and add `(1 - distance/radius) * strength`
times it to the planet's velocity entry (created as zero when absent). -/
def repelStep (selPos : Vec3R) (radius strength : ℝ) (idx : Nat) (pos : Vec3R)
    (vs : List (Nat × Vec3R)) : List (Nat × Vec3R) :=
  let distance := dist3 pos selPos
  if distance < radius ∧ distance > 0 then
    let direction := smul3 (1 / distance) (sub3 pos selPos)
    let forceMagnitude := (1 - distance / radius) * strength
    let v0 := (mapGet vs idx).getD zeroR
    mapSet vs idx (add3 v0 (smul3 forceMagnitude direction))
  else vs

/-- The `forEach` loop of `applyRepulsionForces`: walk the position list
with a running index, skipping the selected index. -/
def repelAux (k : Nat) (selPos : Vec3R) :
    List Vec3R → Nat → List (Nat × Vec3R) → List (Nat × Vec3R)
  | [], _, vs => vs
  | pos :: rest, idx, vs =>
    let vs' := if idx = k then vs
      else repelStep selPos repulsionRadius repulsionStrength idx pos vs
    repelAux k selPos rest (idx + 1) vs'

/-- `applyRepulsionForces` (main.js lines 1070–1098): no-op without a
selection; otherwise read the selected planet's position and accumulate
repulsion into the velocity map. -/
def applyRepulsionForces (sel : Option Nat) (positions : List Vec3R)
    (vs : List (Nat × Vec3R)) : List (Nat × Vec3R) :=
  match sel with
  | none => vs
  | some k =>
    let selPos := (positions.get? k).getD zeroR
    repelAux k selPos positions 0 vs

/-- A demo position shared by two coincident planets. -/
def demoPosR : Vec3R := (1, 2, 3)

/-- Two planets at exactly the same position. -/
def demoPositions : List Vec3R := [demoPosR, demoPosR]

/-- A demo velocity map giving planet 1 a nonzero residual velocity. -/
def demoVelR : List (Nat × Vec3R) := [(1, (5, 0, 0))]

end RealGeometry

end Viewer

/-- Claim C9 (counterexample): the claimed pair of results is false, because
`parseGridCoord "Z-1"` is not `none` — the regex `^([A-Z])-(\d+)$` accepts
every letter A–Z, so `"Z-1"` parses to `{x: 26, y: 1}`. -/
theorem parseGridCoord_claim_false :
    ¬ (Parser.parseGridCoordS "M-10" = some ⟨13, 10⟩ ∧
       Parser.parseGridCoordS "Z-1" = none) := by
  decide

/-- Claim C9 (amended): `parseGridCoord "M-10"` yields `{x: 13, y: 10}` and
`parseGridCoord "Z-1"` yields `{x: 26, y: 1}`: the parser maps the full
A–Z letter range, not only A–U. -/
theorem parseGridCoord_M10_Z1 :
    Parser.parseGridCoordS "M-10" = some ⟨13, 10⟩ ∧
    Parser.parseGridCoordS "Z-1" = some ⟨26, 1⟩ := by
  decide

/-- Claim C10: a CSV data line that splits into at least four trimmed fields
but whose first (system) field is empty contributes neither a planet record
nor an error record; the same holds when the grid field trims to the empty
string (empty or whitespace-only). -/
theorem processLine_silent_skip (f : List Char → List Char) (i : Nat)
    (raw : List Char) (h4 : 4 ≤ (Parser.lineParts raw).length)
    (hc : (Parser.lineParts raw).getD 0 [] = [] ∨
          (Parser.lineParts raw).getD 3 [] = []) :
    Parser.processLine f i raw = none := by
  simp only [Parser.processLine]
  split
  · rfl
  · rcases hc with h0 | h3
    · rw [h0]
      simp
    · split
      · rfl
      · rw [h3]
        simp [Parser.parseGridCoord]

/-- Claim C10 witness: the line `";A;B;M-10"` has four fields, an empty
system field and a well-formed grid field, and is silently skipped. -/
theorem processLine_silent_skip_witness :
    4 ≤ (Parser.lineParts ";A;B;M-10".data).length ∧
    ((Parser.lineParts ";A;B;M-10".data).getD 0 [] = [] ∨
     (Parser.lineParts ";A;B;M-10".data).getD 3 [] = []) ∧
    Parser.processLine (fun s => s) 0 ";A;B;M-10".data = none :=
  ⟨by decide, Or.inl (by decide),
   processLine_silent_skip (fun s => s) 0 ";A;B;M-10".data (by decide)
     (Or.inl (by decide))⟩


/-- Claim C1 (code evaluated at the failing input): starting from a freshly
loaded two-planet viewer, `select(0)` followed by `select(1)` leaves both
planets with `focused = true` — `focusOnPlanet` never clears the previous
planet's flag, so the at-most-one-focused invariant is violated and, in
particular, planet 0's flag is not false after `select(1)`. -/
theorem select_switch_two_focused :
    ((Viewer.select 1 (Viewer.select 0 Viewer.twoPlanetState)).planetData.map
      (fun p => p.focused)) = [true, true] ∧
    ((Viewer.select 1 (Viewer.select 0 Viewer.twoPlanetState)).planetData.filter
      (fun p => p.focused)).length = 2 := by
  decide

/-- Claim C2 (code evaluated at the failing input): in the stale-load
scenario (`select(0)` suspends at its asset load, `select(1)` is issued and
suspends at its own, then planet 0's load resolves), planet 0's mesh is
installed as the active HD asset even though the current selection is
planet 1 — the completed stale load is applied on arrival, not
discarded. -/
theorem stale_load_applied :
    Viewer.staleScenario.selectedPlanetIndex = some 1 ∧
    Viewer.staleScenario.focusedHdMesh = some "volcanic" ∧
    Viewer.staleScenario.focusedHdMeshKey = some "volcanic" := by
  decide

/-- Claim C3 (code evaluated at the failing input): index 5 matches no
planet of the two-planet viewer, yet after `select(0)` (selection = 0) a
failed `select(5)` leaves `selectedPlanetIndex = 5`: the assignment at
main.js line 1276 precedes the validity check of lines 1278–1283, so the
failed call corrupts the selection instead of keeping its previous
value. -/
theorem select_invalid_corrupts_selection :
    (Viewer.twoPlanetState.planetData.find? (fun p => p.index == 5)) = none ∧
    (Viewer.select 0 Viewer.twoPlanetState).selectedPlanetIndex = some 0 ∧
    (Viewer.select 5 (Viewer.select 0 Viewer.twoPlanetState)).selectedPlanetIndex
      = some 5 := by
  decide

namespace Viewer

/-- `lerpVectors` at parameter 1 lands exactly on the target. -/
theorem lerpV_one (a b : Vec3) : lerpV a b 1 = b := by
  obtain ⟨b1, b2, b3⟩ := b
  simp only [lerpV, Prod.mk.injEq]
  refine ⟨by ring, by ring, by ring⟩

/-- Scaling any vector by 0 gives the zero vector. -/
theorem smulV_zero_left (v : Vec3) : smulV 0 v = zeroV := by
  simp [smulV, zeroV]

/-- Scaling the zero vector gives the zero vector. -/
theorem smulV_zeroV (c : ℚ) : smulV c zeroV = zeroV := by
  simp [smulV, zeroV]

/-- After `scaleVel 0 k`, every entry with key `k` is zero. -/
theorem mem_scaleVel_zero {k : Nat} {vs : List (Nat × Vec3)} {e : Nat × Vec3}
    (he : e ∈ scaleVel 0 k vs) (hk : e.1 = k) : e.2 = zeroV := by
  simp only [scaleVel, List.mem_map] at he
  obtain ⟨e0, _, rfl⟩ := he
  by_cases h : e0.1 = k
  · simp [h, smulV_zero_left]
  · have hb : ¬((e0.1 == k) = true) := by simpa using h
    rw [if_neg hb] at hk ⊢
    exact absurd hk h

/-- `scaleVel` preserves the all-entries-with-key-`j`-are-zero property. -/
theorem scaleVel_keeps_zero {c : ℚ} {k j : Nat} {vs : List (Nat × Vec3)}
    (hall : ∀ e ∈ vs, e.1 = j → e.2 = zeroV) :
    ∀ e ∈ scaleVel c k vs, e.1 = j → e.2 = zeroV := by
  intro e he hj
  simp only [scaleVel, List.mem_map] at he
  obtain ⟨e0, he0, rfl⟩ := he
  by_cases h : e0.1 = k
  · have hb : (e0.1 == k) = true := by simpa using h
    rw [if_pos hb] at hj ⊢
    rw [hall e0 he0 hj]
    exact smulV_zeroV c
  · have hb : ¬((e0.1 == k) = true) := by simpa using h
    rw [if_neg hb] at hj ⊢
    exact hall e0 he0 hj

/-- The per-planet velocity fold preserves the zero property of a key. -/
theorem foldScale_keeps_zero {c : ℚ} {j : Nat} (ps : List RPlanet) :
    ∀ (vs : List (Nat × Vec3)), (∀ e ∈ vs, e.1 = j → e.2 = zeroV) →
      ∀ e ∈ ps.foldl (fun acc p => scaleVel c p.index acc) vs,
        e.1 = j → e.2 = zeroV := by
  induction ps with
  | nil => intro vs h; simpa using h
  | cons p ps ih =>
    intro vs h
    simp only [List.foldl_cons]
    exact ih _ (scaleVel_keeps_zero h)

/-- After the factor-0 velocity fold over `ps`, every entry keyed to some
planet of `ps` is zero. -/
theorem foldScale_zero (ps : List RPlanet) :
    ∀ (vs : List (Nat × Vec3)) (e : Nat × Vec3),
      e ∈ ps.foldl (fun acc p => scaleVel 0 p.index acc) vs →
      (∃ p ∈ ps, p.index = e.1) → e.2 = zeroV := by
  induction ps with
  | nil => intro vs e _ hex; simp at hex
  | cons p0 ps ih =>
    intro vs e he hex
    simp only [List.foldl_cons] at he
    obtain ⟨p, hp, hidx⟩ := hex
    rcases List.mem_cons.mp hp with rfl | hp'
    · have hbase : ∀ e' ∈ scaleVel 0 p.index vs, e'.1 = p.index → e'.2 = zeroV :=
        fun e' he' h' => mem_scaleVel_zero he' h'
      exact foldScale_keeps_zero ps _ hbase e he hidx.symm
    · exact ih _ e he ⟨p, hp', hidx⟩

/-- A frame whose elapsed time has reached the duration puts every position
back at its original and zeroes every planet-keyed velocity. -/
theorem restoreFrame_done (d : ℚ) (start : List RPlanet) (t : ℚ)
    (ps : List RPlanet) (vs : List (Nat × Vec3)) (hd : 0 < d) (hle : d ≤ t) :
    (∀ p ∈ (restoreFrame d start t ps vs).1, p.position = p.originalPosition) ∧
    (∀ e ∈ (restoreFrame d start t ps vs).2,
       (∃ p ∈ (restoreFrame d start t ps vs).1, p.index = e.1) → e.2 = zeroV) := by
  have hprog : min (t / d) 1 = 1 := min_eq_right ((one_le_div hd).mpr hle)
  have h1 : (1 : ℚ) - (1 - 1) ^ 3 = 1 := by norm_num
  constructor
  · intro p hp
    simp only [restoreFrame, hprog, h1] at hp
    obtain ⟨p0, _, rfl⟩ := List.mem_map.mp hp
    simp [lerpV_one]
  · intro e he hex
    simp only [restoreFrame, hprog, sub_self] at he hex
    obtain ⟨p', hp', hidx⟩ := hex
    obtain ⟨p0, hp0, rfl⟩ := List.mem_map.mp hp'
    exact foldScale_zero ps vs e he ⟨p0, hp0, by simpa using hidx⟩

/-- Frame recursion: as soon as some frame time reaches the duration, the
animation ends with all positions restored and all planet velocities
zero. -/
theorem runRestoreAux_conv (d : ℚ) (start : List RPlanet) (hd : 0 < d) :
    ∀ (times : List ℚ) (ps : List RPlanet) (vs : List (Nat × Vec3)),
      (∃ t ∈ times, d ≤ t) →
      (∀ p ∈ (runRestoreAux d start times ps vs).1,
         p.position = p.originalPosition) ∧
      (∀ e ∈ (runRestoreAux d start times ps vs).2,
        (∃ p ∈ (runRestoreAux d start times ps vs).1, p.index = e.1) →
          e.2 = zeroV) := by
  intro times
  induction times with
  | nil => intro ps vs ht; simp at ht
  | cons t ts ih =>
    intro ps vs ht
    by_cases hle : d ≤ t
    · have hprog : min (t / d) 1 = 1 := min_eq_right ((one_le_div hd).mpr hle)
      have hstop : ¬ (min (t / d) 1 < 1) := by rw [hprog]; exact lt_irrefl 1
      simp only [runRestoreAux, if_neg hstop]
      exact restoreFrame_done d start t ps vs hd hle
    · have htlt : t / d < 1 := (div_lt_one hd).mpr (lt_of_not_le hle)
      have hgo : min (t / d) 1 < 1 := lt_of_le_of_lt (min_le_left _ _) htlt
      have ht' : ∃ t' ∈ ts, d ≤ t' := by
        obtain ⟨t0, ht0, hd0⟩ := ht
        rcases List.mem_cons.mp ht0 with rfl | h
        · exact absurd hd0 hle
        · exact ⟨t0, h, hd0⟩
      simp only [runRestoreAux, if_pos hgo]
      exact ih _ _ ht'

end Viewer

/-- Claim C4: for every planet set, every start state (positions and
velocities) and every duration d > 0, after `restore(d)` runs and some
animation frame executes at an elapsed time past d seconds, every planet's
position equals its originalPosition (exactly, hence within epsilon) and
every planet's velocity entry is the zero vector. -/
theorem restore_converges (d : ℚ) (times : List ℚ) (ps : List Viewer.RPlanet)
    (vs : List (Nat × Viewer.Vec3)) (hd : 0 < d) (ht : ∃ t ∈ times, d ≤ t) :
    (∀ p ∈ (Viewer.runRestore d times ps vs).1,
       p.position = p.originalPosition) ∧
    (∀ e ∈ (Viewer.runRestore d times ps vs).2,
      (∃ p ∈ (Viewer.runRestore d times ps vs).1, p.index = e.1) →
        e.2 = Viewer.zeroV) :=
  Viewer.runRestoreAux_conv d ps hd times ps vs ht

/-- Claim C4 witness: one planet displaced to (3,4,5) with original position
(1,1,1) and residual velocity (2,0,0); restore with duration 1 and a frame
at elapsed time 2. -/
theorem restore_converges_witness :
    (0 : ℚ) < 1 ∧ (∃ t ∈ [(2 : ℚ)], (1 : ℚ) ≤ t) ∧
    ((∀ p ∈ (Viewer.runRestore 1 [2] [Viewer.demoRPlanet] [(0, (2, 0, 0))]).1,
        p.position = p.originalPosition) ∧
     (∀ e ∈ (Viewer.runRestore 1 [2] [Viewer.demoRPlanet] [(0, (2, 0, 0))]).2,
        (∃ p ∈ (Viewer.runRestore 1 [2] [Viewer.demoRPlanet] [(0, (2, 0, 0))]).1,
           p.index = e.1) → e.2 = Viewer.zeroV)) :=
  ⟨by norm_num, ⟨2, by simp, by norm_num⟩,
   restore_converges 1 [2] [Viewer.demoRPlanet] [(0, (2, 0, 0))]
     (by norm_num) ⟨2, by simp, by norm_num⟩⟩

namespace Viewer

/-- `setFocused` does not change a planet's index. -/
theorem setFocused_index (i : Nat) (p : PlanetSt) :
    (setFocused i p).index = p.index := by
  simp only [setFocused]
  split <;> rfl

/-- `setFocused` does not change a planet's visibility. -/
theorem setFocused_visible (i : Nat) (p : PlanetSt) :
    (setFocused i p).visible = p.visible := by
  simp only [setFocused]
  split <;> rfl

/-- Setting the focused flag twice is the same as setting it once. -/
theorem setFocused_idem (i : Nat) (p : PlanetSt) :
    setFocused i (setFocused i p) = setFocused i p := by
  simp only [setFocused]
  by_cases h : (p.index == i) = true
  · rw [if_pos h, if_pos h]
  · rw [if_neg h, if_neg h]

/-- Mapping `setFocused` twice over a planet list is the same as once. -/
theorem map_setFocused_idem (i : Nat) (l : List PlanetSt) :
    (l.map (setFocused i)).map (setFocused i) = l.map (setFocused i) := by
  rw [List.map_map]
  exact List.map_congr_left (fun p _ => setFocused_idem i p)

/-- Lookup by index commutes with `setFocused` mapping. -/
theorem find?_map_setFocused (i : Nat) (l : List PlanetSt) :
    (l.map (setFocused i)).find? (fun p => p.index == i) =
      (l.find? (fun p => p.index == i)).map (setFocused i) := by
  induction l with
  | nil => rfl
  | cons q l ih =>
    simp only [List.map_cons, List.find?_cons, setFocused_index]
    cases hq : (q.index == i) with
    | true => rfl
    | false => exact ih

/-- After `mapSet m k v`, the key `k` is present. -/
theorem mapSet_any_self (m : List (Nat × Vec3)) (k : Nat) (v : Vec3) :
    ((mapSet m k v).any fun e => e.1 == k) = true := by
  unfold mapSet
  by_cases h : (m.any fun e => e.1 == k) = true
  · rw [if_pos h]
    obtain ⟨e, he, hk⟩ := List.any_eq_true.mp h
    exact List.any_eq_true.mpr
      ⟨(k, v), List.mem_map.mpr ⟨e, he, by rw [if_pos hk]⟩, by simp⟩
  · rw [if_neg h]
    exact List.any_eq_true.mpr
      ⟨(k, v), List.mem_append.mpr (Or.inr (by simp)), by simp⟩

/-- After `mapSet m k zeroV`, every entry with key `k` holds the zero
vector. -/
theorem mapSet_self_zero (m : List (Nat × Vec3)) (k : Nat) :
    ∀ e ∈ mapSet m k zeroV, e.1 = k → e.2 = zeroV := by
  intro e he hk
  unfold mapSet at he
  by_cases h : (m.any fun e => e.1 == k) = true
  · rw [if_pos h] at he
    obtain ⟨e0, _, rfl⟩ := List.mem_map.mp he
    by_cases h0 : (e0.1 == k) = true
    · rw [if_pos h0]
    · rw [if_neg h0] at hk
      exact absurd hk (by simpa using h0)
  · rw [if_neg h] at he
    rcases List.mem_append.mp he with hm | hl
    · have hne : ¬((e.1 == k) = true) := fun hkb =>
        absurd (List.any_eq_true.mpr ⟨e, hm, hkb⟩) h
      exact absurd hk (by simpa using hne)
    · simp only [List.mem_singleton] at hl
      rw [hl]

/-- `mapSet _ _ zeroV` preserves all-entries-with-key-`j`-are-zero. -/
theorem mapSet_keeps_zero {m : List (Nat × Vec3)} {j : Nat} (k : Nat)
    (hall : ∀ e ∈ m, e.1 = j → e.2 = zeroV) :
    ∀ e ∈ mapSet m k zeroV, e.1 = j → e.2 = zeroV := by
  intro e he hj
  unfold mapSet at he
  by_cases h : (m.any fun e => e.1 == k) = true
  · rw [if_pos h] at he
    obtain ⟨e0, he0, rfl⟩ := List.mem_map.mp he
    by_cases h0 : (e0.1 == k) = true
    · rw [if_pos h0]
    · rw [if_neg h0] at hj ⊢
      exact hall e0 he0 hj
  · rw [if_neg h] at he
    rcases List.mem_append.mp he with hm | hl
    · exact hall e hm hj
    · simp only [List.mem_singleton] at hl
      rw [hl]

/-- `mapSet` preserves presence of any key. -/
theorem mapSet_any_keep {m : List (Nat × Vec3)} {j : Nat} (k : Nat) (v : Vec3)
    (h : (m.any fun e => e.1 == j) = true) :
    ((mapSet m k v).any fun e => e.1 == j) = true := by
  unfold mapSet
  by_cases hk : (m.any fun e => e.1 == k) = true
  · rw [if_pos hk]
    obtain ⟨e, he, hej⟩ := List.any_eq_true.mp h
    refine List.any_eq_true.mpr ?_
    by_cases h0 : (e.1 == k) = true
    · refine ⟨(k, v), List.mem_map.mpr ⟨e, he, by rw [if_pos h0]⟩, ?_⟩
      have h1 : e.1 = k := by simpa using h0
      have h2 : e.1 = j := by simpa using hej
      simp [← h1, h2]
    · exact ⟨e, List.mem_map.mpr ⟨e, he, by rw [if_neg h0]⟩, hej⟩
  · rw [if_neg hk]
    obtain ⟨e, he, hej⟩ := List.any_eq_true.mp h
    exact List.any_eq_true.mpr ⟨e, List.mem_append.mpr (Or.inl he), hej⟩

/-- Re-setting a present key that already holds zero changes nothing. -/
theorem mapSet_eq_self {m : List (Nat × Vec3)} {k : Nat}
    (hany : (m.any fun e => e.1 == k) = true)
    (hall : ∀ e ∈ m, e.1 = k → e.2 = zeroV) :
    mapSet m k zeroV = m := by
  unfold mapSet
  rw [if_pos hany]
  have hid : ∀ e ∈ m, (if e.1 == k then ((k, zeroV) : Nat × Vec3) else e) = e := by
    intro e he
    by_cases h0 : (e.1 == k) = true
    · rw [if_pos h0]
      have h1 : e.1 = k := by simpa using h0
      have h2 : e.2 = zeroV := hall e he h1
      rw [← h1, ← h2]
    · rw [if_neg h0]
  exact (List.map_congr_left hid).trans (List.map_id m)

/-- The velocity fold of `select` preserves presence-and-zero of a key. -/
theorem foldVel_keeps {i j : Nat} (l : List PlanetSt) :
    ∀ (m : List (Nat × Vec3)),
      ((m.any fun e => e.1 == j) = true ∧ ∀ e ∈ m, e.1 = j → e.2 = zeroV) →
      ((l.foldl (zeroOtherVel i) m).any fun e => e.1 == j) = true ∧
        ∀ e ∈ l.foldl (zeroOtherVel i) m, e.1 = j → e.2 = zeroV := by
  induction l with
  | nil => intro m h; simpa using h
  | cons p l ih =>
    intro m h
    simp only [List.foldl_cons]
    apply ih
    unfold zeroOtherVel
    by_cases hp : (p.index == i) = true
    · rw [if_pos hp]; exact h
    · rw [if_neg hp]
      exact ⟨mapSet_any_keep p.index zeroV h.1, mapSet_keeps_zero p.index h.2⟩

/-- After the velocity fold, every non-selected planet of the folded list
has its key present and zeroed. -/
theorem foldVel_good {i : Nat} (l : List PlanetSt) :
    ∀ (m : List (Nat × Vec3)) (p : PlanetSt), p ∈ l → ¬((p.index == i) = true) →
      (((l.foldl (zeroOtherVel i) m).any fun e => e.1 == p.index) = true ∧
        ∀ e ∈ l.foldl (zeroOtherVel i) m, e.1 = p.index → e.2 = zeroV) := by
  induction l with
  | nil => intro m p hp; simp at hp
  | cons q l ih =>
    intro m p hp hpi
    simp only [List.foldl_cons]
    rcases List.mem_cons.mp hp with rfl | hp'
    · have hstep : zeroOtherVel i m p = mapSet m p.index zeroV := by
        unfold zeroOtherVel; rw [if_neg hpi]
      rw [hstep]
      exact foldVel_keeps l _ ⟨mapSet_any_self m p.index zeroV, mapSet_self_zero m p.index⟩
    · exact ih _ p hp' hpi

/-- Re-running the velocity fold on a map where every non-selected planet's
key is already present and zero is the identity. -/
theorem foldVel_idem {i : Nat} (l : List PlanetSt) :
    ∀ (m : List (Nat × Vec3)),
      (∀ p ∈ l, ¬((p.index == i) = true) →
        ((m.any fun e => e.1 == p.index) = true ∧
          ∀ e ∈ m, e.1 = p.index → e.2 = zeroV)) →
      l.foldl (zeroOtherVel i) m = m := by
  induction l with
  | nil => intro m _; rfl
  | cons q l ih =>
    intro m h
    simp only [List.foldl_cons]
    have hq : zeroOtherVel i m q = m := by
      unfold zeroOtherVel
      by_cases hqi : (q.index == i) = true
      · rw [if_pos hqi]
      · rw [if_neg hqi]
        obtain ⟨ha, hz⟩ := h q (List.mem_cons_self q l) hqi
        exact mapSet_eq_self ha hz
    rw [hq]
    exact ih m (fun p hp hpi => h p (List.mem_cons_of_mem q hp) hpi)

/-- Unfolding of `select` when the target index is found. -/
theorem select_of_found (i : Nat) (s : ViewerState) (planet : PlanetSt)
    (hf : s.planetData.find? (fun p => p.index == i) = some planet) :
    select i s =
      { selectedPlanetIndex := some i
        planetData := s.planetData.map (setFocused i)
        planetVelocities :=
          (s.planetData.map (setFocused i)).foldl (zeroOtherVel i)
            s.planetVelocities
        controlsMinDistance := planetSize * 2
        instancedMeshVisible :=
          if planet.visible then false else s.instancedMeshVisible
        regionalCloudsVisible := false
        restoreActive :=
          if s.selectedPlanetIndex ≠ none ∧ s.selectedPlanetIndex ≠ some i then
            true
          else s.restoreActive } := by
  unfold select
  by_cases hr : s.selectedPlanetIndex ≠ none ∧ s.selectedPlanetIndex ≠ some i
  · simp only [if_pos hr]
    rw [hf]
    dsimp only
    by_cases hv : planet.visible = true
    · simp only [if_pos hv]
    · simp only [if_neg hv]
  · simp only [if_neg hr]
    rw [hf]
    dsimp only
    by_cases hv : planet.visible = true
    · simp only [if_pos hv]
    · simp only [if_neg hv]

end Viewer

/-- Claim C8: for a valid planet index i, `select(i)` twice in a row (the
second call while i is already the selected planet) yields the same viewer
state as a single `select(i)`: the same selection, focused flags,
positions, velocities, and visibility flags. -/
theorem select_idempotent (i : Nat) (s : Viewer.ViewerState)
    (h : (s.planetData.find? (fun p => p.index == i)).isSome = true) :
    Viewer.select i (Viewer.select i s) = Viewer.select i s := by
  obtain ⟨planet, hf⟩ := Option.isSome_iff_exists.mp h
  have h1 := Viewer.select_of_found i s planet hf
  have hf2 : (Viewer.select i s).planetData.find? (fun p => p.index == i) =
      some (Viewer.setFocused i planet) := by
    rw [h1]
    show (s.planetData.map (Viewer.setFocused i)).find?
        (fun p => p.index == i) = _
    rw [Viewer.find?_map_setFocused, hf]
    rfl
  have h2 := Viewer.select_of_found i (Viewer.select i s)
    (Viewer.setFocused i planet) hf2
  rw [h2, h1]
  rw [Viewer.map_setFocused_idem i s.planetData]
  rw [Viewer.foldVel_idem _ _
    (fun p hp hpi => Viewer.foldVel_good _ _ p hp hpi)]
  by_cases hv : planet.visible = true <;>
    simp [hv, Viewer.setFocused_visible]

/-- Claim C8 witness: index 0 is valid in the two-planet viewer, and
re-selecting it is a no-op. -/
theorem select_idempotent_witness :
    ((Viewer.twoPlanetState.planetData.find?
        (fun p => p.index == 0)).isSome = true) ∧
    Viewer.select 0 (Viewer.select 0 Viewer.twoPlanetState) =
      Viewer.select 0 Viewer.twoPlanetState :=
  ⟨by decide, select_idempotent 0 Viewer.twoPlanetState (by decide)⟩

namespace Viewer

/-- Scaling all three coordinates by a nonnegative factor scales the
length by that factor. -/
theorem norm3_smul_right (p : Vec3R) (f : ℝ) (hf : 0 ≤ f) :
    norm3 (p.1 * f, p.2.1 * f, p.2.2 * f) = f * norm3 p := by
  unfold norm3
  have h1 : p.1 * f * (p.1 * f) + p.2.1 * f * (p.2.1 * f) +
      p.2.2 * f * (p.2.2 * f) =
      f ^ 2 * (p.1 * p.1 + p.2.1 * p.2.1 + p.2.2 * p.2.2) := by ring
  rw [h1, Real.sqrt_mul (sq_nonneg f), Real.sqrt_sq hf]

/-- The distance from a point to itself is zero. -/
theorem dist3_self (p : Vec3R) : dist3 p p = 0 := by
  simp [dist3, sub3, norm3]

/-- `find?` by key is unchanged by an in-place update of a different key. -/
theorem find?_map_update_ne {α : Type} (m : List (Nat × α)) (k j : Nat) (v : α)
    (h : j ≠ k) :
    (m.map (fun e => if e.1 == k then (k, v) else e)).find?
        (fun e => e.1 == j) =
      m.find? (fun e => e.1 == j) := by
  induction m with
  | nil => rfl
  | cons e m ih =>
    simp only [List.map_cons, List.find?_cons]
    by_cases hek : (e.1 == k) = true
    · rw [if_pos hek]
      have h1 : e.1 = k := by simpa using hek
      have hb : ((k : Nat) == j) = false := beq_false_of_ne (fun hh => h hh.symm)
      simp only [h1, hb]
      exact ih
    · rw [if_neg hek]
      cases hej : (e.1 == j) with
      | false => simp only [hej]; exact ih
      | true => simp only [hej]

/-- `find?` by key ignores an appended entry with a different key. -/
theorem find?_append_single_ne {α : Type} (m : List (Nat × α)) (k j : Nat)
    (v : α) (h : j ≠ k) :
    (m ++ [(k, v)]).find? (fun e => e.1 == j) =
      m.find? (fun e => e.1 == j) := by
  induction m with
  | nil =>
    simp only [List.nil_append, List.find?_cons, List.find?_nil]
    have hb : ((k : Nat) == j) = false := beq_false_of_ne (fun hh => h hh.symm)
    simp [hb]
  | cons e m ih =>
    simp only [List.cons_append, List.find?_cons]
    cases hej : (e.1 == j) with
    | false => simp only [hej]; exact ih
    | true => simp only [hej]

/-- `Map.get` at a key is unchanged by `Map.set` at a different key. -/
theorem mapGet_mapSet_ne {α : Type} (m : List (Nat × α)) (k j : Nat) (v : α)
    (h : j ≠ k) : mapGet (mapSet m k v) j = mapGet m j := by
  unfold mapGet mapSet
  by_cases ha : (m.any fun e => e.1 == k) = true
  · rw [if_pos ha, find?_map_update_ne m k j v h]
  · rw [if_neg ha, find?_append_single_ne m k j v h]

/-- A repulsion step for loop index `idx` leaves other velocity entries
unchanged. -/
theorem repelStep_get_ne (selPos : Vec3R) (radius strength : ℝ) (idx : Nat)
    (pos : Vec3R) (vs : List (Nat × Vec3R)) (j : Nat) (h : j ≠ idx) :
    mapGet (repelStep selPos radius strength idx pos vs) j = mapGet vs j := by
  simp only [repelStep]
  split
  · exact mapGet_mapSet_ne vs idx j _ h
  · rfl

/-- A repulsion step at distance exactly 0 is skipped entirely. -/
theorem repelStep_zero_dist (selPos : Vec3R) (radius strength : ℝ) (idx : Nat)
    (pos : Vec3R) (vs : List (Nat × Vec3R)) (hd : dist3 pos selPos = 0) :
    repelStep selPos radius strength idx pos vs = vs := by
  have hno : ¬ (dist3 pos selPos < radius ∧ dist3 pos selPos > 0) := by
    intro hcond
    rw [hd] at hcond
    exact lt_irrefl 0 hcond.2
  simp only [repelStep]
  rw [if_neg hno]

/-- The repulsion loop never touches the velocity entry of a non-selected
planet whose traversal slot holds a position at distance 0 from the
selected position. -/
theorem repelAux_untouched (k : Nat) (selPos : Vec3R) (j : Nat)
    (l : List Vec3R) :
    ∀ (i0 : Nat) (vs : List (Nat × Vec3R)),
      (∀ off pos, l.get? off = some pos → i0 + off = j →
        dist3 pos selPos = 0) →
      mapGet (repelAux k selPos l i0 vs) j = mapGet vs j := by
  induction l with
  | nil => intro i0 vs _; rfl
  | cons pos rest ih =>
    intro i0 vs hzero
    simp only [repelAux]
    have hstep : mapGet (if i0 = k then vs
        else repelStep selPos repulsionRadius repulsionStrength i0 pos vs) j =
        mapGet vs j := by
      by_cases hik : i0 = k
      · rw [if_pos hik]
      · rw [if_neg hik]
        by_cases hij : i0 = j
        · have h0 : dist3 pos selPos = 0 := hzero 0 pos rfl (by omega)
          rw [repelStep_zero_dist _ _ _ _ _ _ h0]
        · exact repelStep_get_ne _ _ _ _ _ _ _ (fun hh => hij hh.symm)
    rw [ih (i0 + 1) _
      (fun off pos' hget hsum => hzero (off + 1) pos' (by simpa using hget)
        (by omega)),
      hstep]

end Viewer

/-- Claim C5: for every grid cell, every depth factor in [0,1], and every
outcome of the four internal random draws, the point returned by `gridTo3D`
has Euclidean magnitude at most the bounding sphere radius (exactly, in
real arithmetic). -/
theorem gridTo3D_norm_le (gridX gridY depthFactor r1 r2 r3 r4 : ℝ)
    (_hd0 : 0 ≤ depthFactor) (_hd1 : depthFactor ≤ 1) :
    Viewer.norm3 (Viewer.gridTo3D gridX gridY depthFactor r1 r2 r3 r4) ≤
      Viewer.sphereRadiusR := by
  simp only [Viewer.gridTo3D]
  set p := Viewer.gridTo3Dunclamped gridX gridY depthFactor r1 r2 r3 r4 with hp
  by_cases hc : Viewer.norm3 p > Viewer.sphereRadiusR
  · rw [if_pos hc]
    have hR : (0 : ℝ) < Viewer.sphereRadiusR := by norm_num [Viewer.sphereRadiusR]
    have hnp : 0 < Viewer.norm3 p := lt_trans hR hc
    have hf : 0 ≤ Viewer.sphereRadiusR / Viewer.norm3 p :=
      le_of_lt (div_pos hR hnp)
    rw [Viewer.norm3_smul_right p _ hf, div_mul_cancel₀ _ (ne_of_gt hnp)]
  · rw [if_neg hc]
    exact le_of_not_lt hc

/-- Claim C5 witness: the centre cell at depth 1/2 with mid-range draws. -/
theorem gridTo3D_norm_le_witness :
    (0 : ℝ) ≤ 1 / 2 ∧ (1 : ℝ) / 2 ≤ 1 ∧
    Viewer.norm3 (Viewer.gridTo3D 11 11 (1 / 2) (1 / 2) (1 / 2) (1 / 2) 0) ≤
      Viewer.sphereRadiusR :=
  ⟨by norm_num, by norm_num,
   gridTo3D_norm_le 11 11 (1 / 2) (1 / 2) (1 / 2) (1 / 2) 0 (by norm_num)
     (by norm_num)⟩

/-- Claim C6: whenever the clamp fires (the unclamped 3D radius exceeds the
sphere radius), the returned point is a positive scalar multiple of the
unclamped point — the same direction from the origin. -/
theorem gridTo3D_clamp_direction (gridX gridY depthFactor r1 r2 r3 r4 : ℝ)
    (hc : Viewer.norm3
        (Viewer.gridTo3Dunclamped gridX gridY depthFactor r1 r2 r3 r4) >
      Viewer.sphereRadiusR) :
    ∃ c : ℝ, 0 < c ∧
      Viewer.gridTo3D gridX gridY depthFactor r1 r2 r3 r4 =
        Viewer.smul3 c
          (Viewer.gridTo3Dunclamped gridX gridY depthFactor r1 r2 r3 r4) := by
  have hR : (0 : ℝ) < Viewer.sphereRadiusR := by norm_num [Viewer.sphereRadiusR]
  refine ⟨Viewer.sphereRadiusR /
    Viewer.norm3 (Viewer.gridTo3Dunclamped gridX gridY depthFactor r1 r2 r3 r4),
    div_pos hR (lt_trans hR hc), ?_⟩
  simp only [Viewer.gridTo3D]
  rw [if_pos hc]
  simp only [Viewer.smul3, Prod.mk.injEq]
  exact ⟨mul_comm _ _, ⟨mul_comm _ _, mul_comm _ _⟩⟩

/-- Evaluation of the unclamped projection at a far-out grid cell with
mid-range draws: the jitter cancels, the depth term vanishes, and the
point is (20000, 0, 0). -/
theorem grid_unclamped_eval :
    Viewer.gridTo3Dunclamped 1061 11 (1 / 2) (1 / 2) (1 / 2) (1 / 2) 0 =
      (20000, 0, 0) := by
  simp only [Viewer.gridTo3Dunclamped, Viewer.sphereRadiusR, Viewer.gridSizeR]
  norm_num

/-- Claim C6 witness: at grid cell (1061, 11) the unclamped radius is
20000 > 200, the clamp fires, and the result is a positive multiple of the
unclamped point. -/
theorem gridTo3D_clamp_direction_witness :
    Viewer.norm3
        (Viewer.gridTo3Dunclamped 1061 11 (1 / 2) (1 / 2) (1 / 2) (1 / 2) 0) >
      Viewer.sphereRadiusR ∧
    ∃ c : ℝ, 0 < c ∧
      Viewer.gridTo3D 1061 11 (1 / 2) (1 / 2) (1 / 2) (1 / 2) 0 =
        Viewer.smul3 c
          (Viewer.gridTo3Dunclamped 1061 11 (1 / 2) (1 / 2) (1 / 2) (1 / 2) 0) := by
  have hc : Viewer.norm3
      (Viewer.gridTo3Dunclamped 1061 11 (1 / 2) (1 / 2) (1 / 2) (1 / 2) 0) >
      Viewer.sphereRadiusR := by
    rw [grid_unclamped_eval]
    unfold Viewer.norm3
    have h1 : (20000 : ℝ) * 20000 + 0 * 0 + 0 * 0 = 20000 ^ 2 := by norm_num
    simp only []
    rw [h1, Real.sqrt_sq (by norm_num : (0 : ℝ) ≤ 20000)]
    norm_num [Viewer.sphereRadiusR]
  exact ⟨hc, gridTo3D_clamp_direction 1061 11 (1 / 2) (1 / 2) (1 / 2) (1 / 2) 0 hc⟩

/-- Claim C7: in a repulsion step with planet k selected, a non-selected
planet j whose position exactly coincides with the selected planet's
position receives zero velocity contribution — its velocity entry is left
untouched (no divide-by-zero direction is ever formed, since the
`0 < distance` branch is an explicit skip). -/
theorem repulsion_zero_distance_no_force (ps : List Viewer.Vec3R)
    (vs : List (Nat × Viewer.Vec3R)) (k j : Nat) (p : Viewer.Vec3R)
    (hk : ps.get? k = some p) (hj : ps.get? j = some p) (hjk : j ≠ k) :
    Viewer.mapGet (Viewer.applyRepulsionForces (some k) ps vs) j =
      Viewer.mapGet vs j := by
  simp only [Viewer.applyRepulsionForces, hk, Option.getD_some]
  apply Viewer.repelAux_untouched k p j ps 0 vs
  intro off pos hget hsum
  have hoff : off = j := by omega
  subst hoff
  rw [hj] at hget
  injection hget with hpp
  rw [← hpp]
  exact Viewer.dist3_self p

/-- Claim C7 witness: two coincident planets at (1,2,3), planet 0 selected;
planet 1's velocity entry is unchanged by the repulsion step. -/
theorem repulsion_zero_distance_no_force_witness :
    Viewer.demoPositions.get? 0 = some Viewer.demoPosR ∧
    Viewer.demoPositions.get? 1 = some Viewer.demoPosR ∧
    (1 : Nat) ≠ 0 ∧
    Viewer.mapGet
        (Viewer.applyRepulsionForces (some 0) Viewer.demoPositions
          Viewer.demoVelR) 1 =
      Viewer.mapGet Viewer.demoVelR 1 :=
  ⟨rfl, rfl, by decide,
   repulsion_zero_distance_no_force Viewer.demoPositions Viewer.demoVelR 0 1
     Viewer.demoPosR rfl rfl (by decide)⟩
